import Mathlib

/-!
Shallow embedding of the PageSpy extension networking bridge
(`src/content/bridge.ts`, `src/sw/index.ts` and the content-script relay glue),
together with proofs about the serialization codec, the fetch correlation
table, the proxied WebSocket lifecycle and the privileged relay handlers.

JavaScript machine types are modelled as follows: byte buffers become
`List Nat` (each entry a byte value), JS strings become `String`,
`undefined`/nullable fields become `Option`, JS `Map` tables become
association lists with `Map.delete` modelled by filtering the key out, and
an operation that can throw returns `Except String` or reports the thrown
message in its result.
-/

namespace PageSpy

/-- UTF-8 encoding of one character, as a list of byte values. -/
def utf8Char (c : Char) : List Nat :=
  let n := c.toNat
  if n < 0x80 then [n]
  else if n < 0x800 then [0xC0 + n / 64, 0x80 + n % 64]
  else if n < 0x10000 then
    [0xE0 + n / 4096, 0x80 + (n / 64) % 64, 0x80 + n % 64]
  else
    [0xF0 + n / 262144, 0x80 + (n / 4096) % 64, 0x80 + (n / 64) % 64,
      0x80 + n % 64]

/-- Byte content of a JS string as sent on the wire (UTF-8). -/
def textBytes (s : String) : List Nat :=
  s.data.flatMap utf8Char

/-! ### Serialization codec data model

`FormDataEntryPayload` and `SerializedBody` mirror the tagged unions declared
at the top of `src/content/bridge.ts` (and re-declared identically in
`src/sw/index.ts`).  The optional `mime` fields are `Option String` exactly as
the `mime?: string` fields in the source. -/

/-- One entry of a serialized multipart form, as in the
`FormDataEntryPayload` union of `bridge.ts`. -/
inductive FormDataEntryPayload where
  | textEntry (key : String) (value : String)
  | fileEntry (key : String) (name : String) (mime : Option String)
      (buffer : List Nat)
  deriving Repr, DecidableEq

/-- The transport-safe body representation, as in the `SerializedBody`
union of `bridge.ts` / `sw/index.ts`. -/
inductive SerializedBody where
  | none
  | text (value : String)
  | arrayBuffer (buffer : List Nat)
  | blob (buffer : List Nat) (mime : Option String)
  | formData (entries : List FormDataEntryPayload)
  deriving Repr, DecidableEq

/-- A value stored in a page-side `FormData` object: either a plain string
field or a `File` (name, mime type, contents). -/
inductive JsFormValue where
  | text (value : String)
  | file (name : String) (mime : String) (bytes : List Nat)
  deriving Repr, DecidableEq

/-- The native `BodyInit` values accepted by `serializeBody` in `bridge.ts`.
A typed-array view (`ArrayBuffer.isView`) carries its backing buffer plus the
view's byte offset and byte length, since the source code reads `body.buffer`,
which is the whole backing buffer. -/
inductive JsBody where
  | str (s : String)
  | urlSearchParams (encoded : String)
  | formData (entries : List (String × JsFormValue))
  | blob (bytes : List Nat) (mime : String)
  | arrayBuffer (bytes : List Nat)
  | typedView (backing : List Nat) (byteOffset : Nat) (byteLength : Nat)
  deriving Repr, DecidableEq

/-- A JS falsiness test for an optional body: `null`/`undefined` and the
empty string are falsy; every object is truthy. -/
def jsBodyTruthy : Option JsBody → Bool
  | Option.none => false
  | some (.str s) => !s.isEmpty
  | some _ => true

/-- Conversion of one `FormData` entry inside `serializeBody`: a string value
becomes a text entry, a `File` is read into bytes and keeps `value.name` and
`value.type`. -/
def serializeFormEntry : String × JsFormValue → FormDataEntryPayload
  | (key, .text v) => .textEntry key v
  | (key, .file name mime bytes) => .fileEntry key name (some mime) bytes

/-- `serializeBody` from `src/content/bridge.ts` (lines 339-378): the falsy
check, then the `instanceof` chain in source order (string, URLSearchParams,
FormData, Blob, ArrayBuffer / typed view), with the final
`return \x7b type: 'none' \x7d` fallback.  For a typed view the source runs
`new Uint8Array(body.buffer)`, i.e. it captures the entire backing buffer. -/
def serializeBody (body : Option JsBody) : SerializedBody :=
  if !jsBodyTruthy body then .none
  else match body with
    | Option.none => .none
    | some (.str s) => .text s
    | some (.urlSearchParams enc) => .text enc
    | some (.formData entries) => .formData (entries.map serializeFormEntry)
    | some (.blob bytes mime) => .blob bytes (some mime)
    | some (.arrayBuffer bytes) => .arrayBuffer bytes
    | some (.typedView backing _ _) => .arrayBuffer backing

/-- A field of a relay-side rebuilt `FormData`. -/
inductive RelayFormValue where
  | text (value : String)
  | file (name : String) (mime : String) (bytes : List Nat)
  deriving Repr, DecidableEq

/-- The native `BodyInit` values produced by `deserializeBody` in
`src/sw/index.ts`: a string, a `Uint8Array`, a `Blob` (whose `type` is a
plain string, `''` when the wire mime was absent), or a rebuilt `FormData`. -/
inductive RelayBody where
  | str (s : String)
  | bytes (b : List Nat)
  | blob (b : List Nat) (mime : String)
  | formData (entries : List (String × RelayFormValue))
  deriving Repr, DecidableEq

/-- Conversion of one wire entry inside `deserializeBody`: text entries are
appended as strings, file entries become a `File` with the original name,
bytes, and `type: entry.mime || ''`. -/
def deserializeFormEntry : FormDataEntryPayload → String × RelayFormValue
  | .textEntry key v => (key, RelayFormValue.text v)
  | .fileEntry key name mime buffer =>
      (key, RelayFormValue.file name (mime.getD "") buffer)

/-- `deserializeBody` from `src/sw/index.ts` (lines 223-250): `none` yields
`undefined`, `text` the string, `arrayBuffer` the raw buffer, `blob` a Blob
with `type: body.mime || ''`, and `formData` a `FormData` rebuilt by
appending the entries in order, files with `type: entry.mime || ''`. -/
def deserializeBody (body : SerializedBody) : Option RelayBody :=
  match body with
  | .none => Option.none
  | .text v => some (.str v)
  | .arrayBuffer b => some (.bytes b)
  | .blob b mime => some (.blob b (mime.getD ""))
  | .formData entries => some (.formData (entries.map deserializeFormEntry))

/-! ### Wire-format observation

What the wire format can distinguish about a body: its byte content, for a
blob additionally its mime type, and for a multipart form the ordered field
list with names, file names, mime types and byte content.  An absent body and
an empty body both contribute zero bytes. -/

/-- Observation of one multipart field: name plus value bytes, and for files
the file name and mime type. -/
inductive FieldObs where
  | textF (key : String) (valueBytes : List Nat)
  | fileF (key : String) (name : String) (mime : String) (bytes : List Nat)
  deriving Repr, DecidableEq

/-- Wire-level observation of a body: raw byte content, blob content plus
mime, or the ordered multipart field list. -/
inductive BodyObs where
  | raw (bytes : List Nat)
  | blobObs (bytes : List Nat) (mime : String)
  | formObs (fields : List FieldObs)
  deriving Repr, DecidableEq

/-- Observation of one page-side form field. -/
def observeJsFormEntry : String × JsFormValue → FieldObs
  | (key, .text v) => .textF key (textBytes v)
  | (key, .file name mime bytes) => .fileF key name mime bytes

/-- Observation of a page-side body.  A typed view contributes exactly the
bytes in its `byteOffset`/`byteLength` window, which is what `fetch` would
send for it. -/
def observeJsBody : Option JsBody → BodyObs
  | Option.none => .raw []
  | some (.str s) => .raw (textBytes s)
  | some (.urlSearchParams enc) => .raw (textBytes enc)
  | some (.formData entries) => .formObs (entries.map observeJsFormEntry)
  | some (.blob bytes mime) => .blobObs bytes mime
  | some (.arrayBuffer bytes) => .raw bytes
  | some (.typedView backing off len) => .raw ((backing.drop off).take len)

/-- Observation of one relay-side form field. -/
def observeRelayFormEntry : String × RelayFormValue → FieldObs
  | (key, RelayFormValue.text v) => .textF key (textBytes v)
  | (key, RelayFormValue.file name mime bytes) => .fileF key name mime bytes

/-- Observation of a relay-side reconstructed body. -/
def observeRelayBody : Option RelayBody → BodyObs
  | Option.none => .raw []
  | some (.str s) => .raw (textBytes s)
  | some (.bytes b) => .raw b
  | some (.blob b mime) => .blobObs b mime
  | some (.formData entries) => .formObs (entries.map observeRelayFormEntry)

/-- A body whose typed-array views (if any) cover their entire backing
buffer. -/
def viewsCoverBuffer : Option JsBody → Prop
  | some (.typedView backing off len) => off = 0 ∧ len = backing.length
  | _ => True

instance (b : Option JsBody) : Decidable (viewsCoverBuffer b) := by
  unfold viewsCoverBuffer
  cases b with
  | none => exact inferInstance
  | some jb => cases jb <;> exact inferInstance

/-! ### Bridge protocol constants (`bridge.ts` lines 4-8) -/

def BRIDGE_SCOPE : String := "pagespy-bridge"
def BRIDGE_FETCH : String := "pagespy:fetch"
def WS_OPEN : String := "pagespy:ws-open"
def WS_SEND : String := "pagespy:ws-send"
def WS_CLOSE : String := "pagespy:ws-close"

/-- JS truthiness of an optional string: `undefined` and `''` are falsy. -/
def strTruthy : Option String → Bool
  | some s => !s.isEmpty
  | Option.none => false

/-! ### Fetch correlation (page side, `bridge.ts`) -/

/-- The `FetchResponsePayload` record of `bridge.ts`.  `ok` and `error` are
optional fields; the others are always present in a relay reply. -/
structure FetchResponsePayload where
  ok : Option Bool
  status : Nat
  statusText : String
  headers : List (String × String)
  body : String
  error : Option String
  deriving Repr, DecidableEq

/-- Truthiness of `data.payload?.ok`. -/
def payloadOkTruthy : Option FetchResponsePayload → Bool
  | some p => p.ok == some true
  | Option.none => false

/-- The value of `data.payload?.error`. -/
def payloadError : Option FetchResponsePayload → Option String
  | some p => p.error
  | Option.none => Option.none

/-- The expression
`data.error || (!data.payload?.ok && data.payload?.error)` from
`handleBridgeMessage`, returning `some` exactly when the result is truthy
(in which case the pending promise is rejected with that message). -/
def responseErrorMsg (error : Option String)
    (payload : Option FetchResponsePayload) : Option String :=
  if strTruthy error then error
  else if !payloadOkTruthy payload && strTruthy (payloadError payload) then
    payloadError payload
  else Option.none

/-- How a pending fetch promise was completed. -/
inductive FetchCompletion where
  | resolved (payload : Option FetchResponsePayload)
  | rejected (message : String)
  deriving Repr, DecidableEq

/-- The completion the fetch-response branch of `handleBridgeMessage` hands
to the pending resolver: `reject(new Error(errorMsg))` when the error
expression is truthy, `resolve(data.payload)` otherwise. -/
def fetchOutcome (error : Option String)
    (payload : Option FetchResponsePayload) : FetchCompletion :=
  match responseErrorMsg error payload with
  | some msg => .rejected msg
  | Option.none => .resolved payload

/-! ### Page-side proxied WebSocket (`bridge.ts` class `BridgeWebSocket`) -/

/-- Data carried in a `ws-send` or relayed `ws-event` message: a JS string,
a `Uint8Array`, or the `null` the relay substitutes for unsupported frame
data. -/
inductive WsData where
  | str (s : String)
  | bytes (b : List Nat)
  | jsNull
  deriving Repr, DecidableEq

/-- Data handed to the page `onmessage` handler: a `Uint8Array` is converted
to its `ArrayBuffer` when the socket's `binaryType` is `'arraybuffer'`,
otherwise values pass through as given. -/
inductive PageMsgData where
  | str (s : String)
  | bytes (b : List Nat)
  | arrayBuffer (b : List Nat)
  | jsNull
  deriving Repr, DecidableEq

/-- A `ws-event` payload posted by the relay: a socket id, the event name as
a plain string (so unrecognized names are representable), and the optional
data / close-information fields. -/
structure WsEventPayload where
  wsId : String
  event : String
  data : Option WsData
  code : Option Nat
  reason : Option String
  wasClean : Option Bool
  error : Option String
  deriving Repr, DecidableEq

/-- Mutable state of one page-side `BridgeWebSocket` instance: its id, url,
`binaryType` and `readyState` (0 connecting, 1 open, 2 closing, 3 closed,
the native constants). -/
structure BridgeWebSocket where
  wsId : String
  url : String
  binaryType : String
  readyState : Nat
  deriving Repr, DecidableEq

namespace BridgeWebSocket

def CONNECTING : Nat := 0
def OPEN : Nat := 1
def CLOSING : Nat := 2
def CLOSED : Nat := 3

end BridgeWebSocket

/-- The bridge message posted by `BridgeWebSocket.send`. -/
structure WsSendMsg where
  scope : String
  type : String
  wsId : String
  data : WsData
  deriving Repr, DecidableEq

/-- The bridge message posted by `BridgeWebSocket.close`. -/
structure WsCloseMsg where
  scope : String
  type : String
  wsId : String
  code : Option Nat
  reason : Option String
  deriving Repr, DecidableEq

/-- `BridgeWebSocket.send` (`bridge.ts` lines 250-258): throws
`'WebSocket is not open'` unless `readyState` is `OPEN`, otherwise posts a
`ws-send` message carrying the data unchanged. -/
def BridgeWebSocket.send (ws : BridgeWebSocket) (data : WsData) :
    Except String WsSendMsg :=
  if ws.readyState ≠ BridgeWebSocket.OPEN then
    .error "WebSocket is not open"
  else
    .ok { scope := BRIDGE_SCOPE, type := WS_SEND, wsId := ws.wsId, data := data }

/-- `BridgeWebSocket.close` (`bridge.ts` lines 260-273): a no-op when
`readyState` is already `CLOSED`; otherwise sets `readyState` to `CLOSING`
and posts a `ws-close` message.  Returns the new socket state and the posted
message, if any. -/
def BridgeWebSocket.close (ws : BridgeWebSocket) (code : Option Nat)
    (reason : Option String) : BridgeWebSocket × Option WsCloseMsg :=
  if ws.readyState = BridgeWebSocket.CLOSED then (ws, Option.none)
  else
    ({ ws with readyState := BridgeWebSocket.CLOSING },
      some { scope := BRIDGE_SCOPE, type := WS_CLOSE, wsId := ws.wsId,
             code := code, reason := reason })

/-- An event dispatched to the page-side socket's handlers. -/
inductive SocketEvent where
  | openEvt
  | messageEvt (data : PageMsgData)
  | errorEvt
  | closeEvt (code : Option Nat) (reason : Option String) (wasClean : Bool)
  deriving Repr, DecidableEq

/-- Result of `BridgeWebSocket.handleRemoteEvent`: the socket's new state,
whether the socket deleted itself from the page socket table
(`socketMap.delete(this.wsId)`), and the event dispatched to handlers. -/
structure RemoteEventResult where
  socket : BridgeWebSocket
  removeFromTable : Bool
  dispatched : Option SocketEvent
  deriving Repr, DecidableEq

/-- `BridgeWebSocket.handleRemoteEvent` (`bridge.ts` lines 275-308): `open`
sets `readyState` to `OPEN` and dispatches an open event; `message` converts
`Uint8Array` data to an `ArrayBuffer` when `binaryType` is `'arraybuffer'`
and dispatches a message event; `error` dispatches an error event; `close`
sets `readyState` to `CLOSED`, deletes the socket from the table, and
dispatches a close event with `Boolean(payload.wasClean)`; anything else
falls through to the `default` branch and does nothing. -/
def BridgeWebSocket.handleRemoteEvent (ws : BridgeWebSocket)
    (p : WsEventPayload) : RemoteEventResult :=
  if p.event = "open" then
    { socket := { ws with readyState := BridgeWebSocket.OPEN },
      removeFromTable := false, dispatched := some .openEvt }
  else if p.event = "message" then
    let d : PageMsgData :=
      match p.data with
      | some (.bytes b) =>
          if ws.binaryType = "arraybuffer" then .arrayBuffer b else .bytes b
      | some (.str s) => .str s
      | some .jsNull => .jsNull
      | Option.none => .jsNull
    { socket := ws, removeFromTable := false, dispatched := some (.messageEvt d) }
  else if p.event = "error" then
    { socket := ws, removeFromTable := false, dispatched := some .errorEvt }
  else if p.event = "close" then
    { socket := { ws with readyState := BridgeWebSocket.CLOSED },
      removeFromTable := true,
      dispatched := some (.closeEvt p.code p.reason (p.wasClean.getD false)) }
  else
    { socket := ws, removeFromTable := false, dispatched := Option.none }

/-- Replacement of the entry for `k` in an association list: the model of
mutating the socket object stored under `k` in the JS `Map`. -/
def mapReplace (k : String) (v : BridgeWebSocket)
    (l : List (String × BridgeWebSocket)) : List (String × BridgeWebSocket) :=
  l.map (fun e => if e.1 == k then (e.1, v) else e)

/-- The `ws-event` branch of `handleBridgeMessage`
(`bridge.ts` lines 119-123): look the socket up by `payload?.wsId` (a
missing payload or unknown id is a no-op) and let it handle the event.  The
returned table reflects the socket's mutation or its self-removal. -/
def handleWsEventMsg (sockets : List (String × BridgeWebSocket))
    (p : Option WsEventPayload) :
    List (String × BridgeWebSocket) × Option SocketEvent :=
  match p with
  | Option.none => (sockets, Option.none)
  | some payload =>
    match sockets.lookup payload.wsId with
    | Option.none => (sockets, Option.none)
    | some ws =>
      let r := ws.handleRemoteEvent payload
      let tbl :=
        if r.removeFromTable then
          sockets.filter (fun e => e.1 != r.socket.wsId)
        else mapReplace payload.wsId r.socket sockets
      (tbl, r.dispatched)

/-! ### The page-side message dispatcher (`handleBridgeMessage`) -/

/-- The body of a message arriving on the page bus: a fetch response
(`'pagespy:fetch:response'`), a relayed `'pagespy:ws-event'`, or anything
else (ignored by both `if` branches of the source). -/
inductive BridgeMsgBody where
  | fetchResponse (requestId : String) (error : Option String)
      (payload : Option FetchResponsePayload)
  | wsEvent (payload : Option WsEventPayload)
  | other
  deriving Repr, DecidableEq

/-- A message on the shared page bus: a scope tag plus a body. -/
structure BusMessage where
  scope : String
  body : BridgeMsgBody
  deriving Repr, DecidableEq

/-- Observable page-side bridge state: the pending-fetch table (ids whose
resolver is registered), the log of promise completions in the order they
happened, and the socket table. -/
structure ContentState where
  fetchPending : List String
  fetchCompletions : List (String × FetchCompletion)
  socketMap : List (String × BridgeWebSocket)
  deriving Repr, DecidableEq

/-- `handleBridgeMessage` (`bridge.ts` lines 101-124): messages without the
bridge scope are ignored.  A fetch response first reads and then deletes the
pending entry (`Map.delete` modelled by filtering the id out); when no
resolver was pending it returns; otherwise it rejects or resolves that
promise.  A `ws-event` is routed to the socket table. -/
def handleBridgeMessage (st : ContentState) (msg : BusMessage) :
    ContentState × Option SocketEvent :=
  if msg.scope != BRIDGE_SCOPE then (st, Option.none)
  else match msg.body with
  | .fetchResponse requestId error payload =>
      let hasPending := st.fetchPending.contains requestId
      let pending' := st.fetchPending.filter (fun x => x != requestId)
      if !hasPending then
        ({ st with fetchPending := pending' }, Option.none)
      else
        ({ st with fetchPending := pending',
                   fetchCompletions := st.fetchCompletions ++
                     [(requestId, fetchOutcome error payload)] },
          Option.none)
  | .wsEvent p =>
      let r := handleWsEventMsg st.socketMap p
      ({ st with socketMap := r.1 }, r.2)
  | .other => (st, Option.none)

/-- The state transition of one bus message. -/
def stepBridge (st : ContentState) (m : BusMessage) : ContentState :=
  (handleBridgeMessage st m).1

/-- Processing a sequence of bus messages in arrival order. -/
def runBridgeMessages (st : ContentState) (msgs : List BusMessage) :
    ContentState :=
  msgs.foldl stepBridge st

/-- The data of one relayed fetch-response message. -/
structure FetchResponseData where
  requestId : String
  error : Option String
  payload : Option FetchResponsePayload
  deriving Repr, DecidableEq

/-- The bus message carrying a fetch response, as posted by the content
script relay glue with the bridge scope. -/
def toResponseMsg (d : FetchResponseData) : BusMessage :=
  { scope := BRIDGE_SCOPE,
    body := .fetchResponse d.requestId d.error d.payload }

/-! ### Eligibility check (`shouldProxyUrl`, `bridge.ts` lines 49-132) -/

/-- The cached configuration record; the fields the code reads.  A field
missing from the parsed JSON behaves like the empty string under the
source's truthiness checks, so string fields are plain strings here. -/
structure ExtensionConfig where
  domainRules : String
  enableSSL : Bool
  serviceAddress : String
  deriving Repr, DecidableEq

/-- What `sessionStorage` + `JSON.parse` can produce for the config key:
no item (or an empty string, which is falsy), a string that fails to parse,
a parse result that is `null`/falsy, a parse result that is not an object,
or an object (cast to `ExtensionConfig` without validation). -/
inductive CachedConfigValue where
  | absent
  | unparsable
  | parsedNull
  | parsedNonObject
  | parsedConfig (c : ExtensionConfig)
  deriving Repr, DecidableEq

/-- `readCachedConfig` (`bridge.ts` lines 55-65): `null` unless the cache
holds a string that parses to an object; a parse failure is caught. -/
def readCachedConfig : CachedConfigValue → Option ExtensionConfig
  | .parsedConfig c => some c
  | _ => Option.none

/-- `isEnabledForCurrentPage` (`bridge.ts` lines 67-70): false when there is
no config or `domainRules` is falsy, otherwise the external
`matchCurrentTab` evaluator applied to the rules and the page origin. -/
def isEnabledForCurrentPage (matchTab : String → String → Bool)
    (origin : String) : Option ExtensionConfig → Bool
  | Option.none => false
  | some c => if c.domainRules.isEmpty then false
      else matchTab c.domainRules origin

/-- The host and pathname of a parsed URL. -/
structure UrlParts where
  host : String
  pathname : String
  deriving Repr, DecidableEq

/-- Whether a character list starts with the given character list. -/
def charsStartWith : List Char → List Char → Bool
  | _, [] => true
  | [], _ :: _ => false
  | c :: cs, d :: ds => c == d && charsStartWith cs ds

/-- Model of `new URL` on an `http(s)://` string, computed over the
character list: the authority runs to the first `/`, `?` or `#` and must be
non-empty (else the constructor throws, modelled as `none`); the pathname
runs from there to the first `?` or `#` and defaults to `/`. -/
def parseHttpUrl (s : String) : Option UrlParts :=
  let cs := s.data
  let rest? : Option (List Char) :=
    if charsStartWith cs "https://".data then some (cs.drop 8)
    else if charsStartWith cs "http://".data then some (cs.drop 7)
    else Option.none
  match rest? with
  | Option.none => Option.none
  | some rest =>
    let authority := rest.takeWhile (fun c => c != '/' && c != '?' && c != '#')
    if authority.isEmpty then Option.none
    else
      let tail := rest.drop authority.length
      let path := tail.takeWhile (fun c => c != '?' && c != '#')
      some { host := String.mk authority,
             pathname := String.mk (if path.isEmpty then ['/'] else path) }

/-- `getTargetHost` (`bridge.ts` lines 72-85): `null` when there is no
config or no `serviceAddress`; otherwise prepend the scheme chosen by
`enableSSL`, parse, rebuild `host + pathname` without a trailing slash,
parse again and return that host; any `URL` failure is caught as `null`. -/
def getTargetHost (config : Option ExtensionConfig) : Option String :=
  match config with
  | Option.none => Option.none
  | some c =>
    if c.serviceAddress.isEmpty then Option.none
    else
      let scheme := if c.enableSSL then "https://" else "http://"
      match parseHttpUrl (String.mk (scheme.data ++ c.serviceAddress.data)) with
      | Option.none => Option.none
      | some u =>
        let pcs := u.pathname.data
        let addressChars :=
          if pcs.getLast? == some '/' then u.host.data ++ pcs.dropLast
          else u.host.data ++ pcs
        match parseHttpUrl (String.mk (scheme.data ++ addressChars)) with
        | Option.none => Option.none
        | some u2 => some u2.host

/-- `shouldProxyUrl` (`bridge.ts` lines 126-132): read the cached config,
require the page to be enabled, derive the target host, and compare it with
the requested URL's host. -/
def shouldProxyUrl (matchTab : String → String → Bool) (origin : String)
    (cache : CachedConfigValue) (targetUrl : UrlParts) : Bool :=
  let config := readCachedConfig cache
  if !isEnabledForCurrentPage matchTab origin config then false
  else match getTargetHost config with
    | Option.none => false
    | some host => targetUrl.host == host

/-! ### Privileged relay: fetch handling (`sw/index.ts`) -/

/-- The serialized `init` of a fetch-request payload. -/
structure SerializedInitMsg where
  headers : Option (List (String × String))
  method : Option String
  credentials : Option String
  body : Option SerializedBody
  deriving Repr, DecidableEq

/-- The native request options rebuilt by `handleProxiedFetch`: the spread
copy of `init` with `body` deleted, headers rebuilt, and the body
deserialized (a `'none'` wire body deserializes to no body). -/
structure RelayRequestInit where
  headers : Option (List (String × String))
  method : Option String
  credentials : Option String
  body : Option RelayBody
  deriving Repr, DecidableEq

/-- The `reqInit` construction in `handleProxiedFetch`
(`sw/index.ts` lines 197-209). -/
def buildReqInit (init : Option SerializedInitMsg) : RelayRequestInit :=
  match init with
  | Option.none => { headers := Option.none, method := Option.none,
                     credentials := Option.none, body := Option.none }
  | some i =>
      { headers := i.headers, method := i.method, credentials := i.credentials,
        body := match i.body with
                | some sb => deserializeBody sb
                | Option.none => Option.none }

/-- What the real `fetch` resolves to before the body is read; reading the
body (`res.text()`) can itself reject. -/
structure RelayHttpResponse where
  status : Nat
  statusText : String
  headers : List (String × String)
  textResult : Except String String
  deriving Repr

/-- The value `handleProxiedFetch` resolves with. -/
structure RelayFetchResult where
  status : Nat
  statusText : String
  headers : List (String × String)
  body : String
  deriving Repr, DecidableEq

/-- `handleProxiedFetch` (`sw/index.ts` lines 193-221), parameterized by the
behavior of the real `fetch`: build `reqInit`, perform the fetch, read the
response text; a rejection at either step propagates as the thrown error. -/
def handleProxiedFetch
    (fetchImpl : String → RelayRequestInit → Except String RelayHttpResponse)
    (url : String) (init : Option SerializedInitMsg) :
    Except String RelayFetchResult :=
  match fetchImpl url (buildReqInit init) with
  | .error e => .error e
  | .ok res =>
    match res.textResult with
    | .error e => .error e
    | .ok body =>
        .ok { status := res.status, statusText := res.statusText,
              headers := res.headers, body := body }

/-- The reply sent through `sendResponse` by the `chrome.runtime.onMessage`
listener: the success record spread into `ok: true`, or
`\x7b ok: false, error \x7d`. -/
inductive FetchReply where
  | success (status : Nat) (statusText : String)
      (headers : List (String × String)) (body : String)
  | failure (error : String)
  deriving Repr, DecidableEq

/-- A `chrome.runtime` one-shot message as seen by the relay listener. -/
structure RuntimeMsg where
  type : String
  url : String
  init : Option SerializedInitMsg
  deriving Repr, DecidableEq

/-- The `chrome.runtime.onMessage` listener (`sw/index.ts` lines 63-71):
messages of any other type are ignored (no reply); a fetch-request is
handled and its promise outcome is converted into exactly one reply,
`.then` producing the success reply and `.catch` the failure reply. -/
def onFetchRequestMessage
    (fetchImpl : String → RelayRequestInit → Except String RelayHttpResponse)
    (msg : RuntimeMsg) : Option FetchReply :=
  if msg.type != BRIDGE_FETCH then Option.none
  else some (match handleProxiedFetch fetchImpl msg.url msg.init with
    | .ok res => .success res.status res.statusText res.headers res.body
    | .error e => .failure e)

/-! ### Privileged relay: WebSocket table (`sw/index.ts` port handler) -/

/-- A real WebSocket held by the relay, abstracted to the one behavior the
close handlers observe: whether `close()` succeeds or throws, and with what
message. -/
structure RelaySocket where
  closeError : Option String
  deriving Repr, DecidableEq

/-- An event message the relay posts back over the port. -/
inductive PortEvent where
  | errorEvt (wsId : String) (error : String)
  deriving Repr, DecidableEq

/-- `cleanupSocket` (`sw/index.ts` lines 78-87): a no-op for an unknown id;
otherwise `close()` is attempted (a throw is caught and only logged) and the
entry is deleted. -/
def cleanupSocket (sockets : List (String × RelaySocket)) (wsId : String) :
    List (String × RelaySocket) :=
  match sockets.lookup wsId with
  | Option.none => sockets
  | some _ => sockets.filter (fun e => e.1 != wsId)

/-- The `WS_CLOSE` branch of the port message handler
(`sw/index.ts` lines 161-174): `ws?.close(code, reason)` inside `try`, an
error event with `error?.message || 'Close WebSocket failed'` on a throw,
and `cleanupSocket` in the `finally` block. -/
def handleWsCloseMsg (sockets : List (String × RelaySocket)) (wsId : String) :
    List (String × RelaySocket) × List PortEvent :=
  let events : List PortEvent :=
    match sockets.lookup wsId with
    | Option.none => []
    | some w =>
      match w.closeError with
      | Option.none => []
      | some m =>
          [.errorEvt wsId (if m.isEmpty then "Close WebSocket failed" else m)]
  (cleanupSocket sockets wsId, events)

/-- The `port.onDisconnect` iteration (`sw/index.ts` lines 181-190):
`sockets.forEach` closing each socket inside its own `try`/`catch`, so a
throwing close (recorded as `true` in the result) does not stop the
iteration over the remaining sockets. -/
def forEachClose : List (String × RelaySocket) → List (String × Bool)
  | [] => []
  | (id, ws) :: rest =>
      match ws.closeError with
      | Option.none => (id, false) :: forEachClose rest
      | some _ => (id, true) :: forEachClose rest

/-- The complete `port.onDisconnect` listener: every socket is close-attempted
and the table is cleared. -/
def onPortDisconnect (sockets : List (String × RelaySocket)) :
    List (String × Bool) × List (String × RelaySocket) :=
  (forEachClose sockets, [])

/-- The keys of an association-list table are pairwise distinct, as they are
in a JS `Map`. -/
def nodupKeys {β : Type} (l : List (String × β)) : Prop :=
  (l.map Prod.fst).Nodup

/-- Round-trip of a single multipart field preserves its name, value bytes,
file name and mime type. -/
theorem formEntry_roundTrip (e : String × JsFormValue) :
    observeRelayFormEntry (deserializeFormEntry (serializeFormEntry e)) =
      observeJsFormEntry e := by
  rcases e with ⟨key, v | ⟨name, mime, bytes⟩⟩ <;> rfl

/-- Serialization round-trip for every accepted body variant, under the
proviso that typed-array views cover their whole backing buffer: the
reconstructed body has byte-identical content, the same field order and the
same mime types as the original. -/
theorem serializeBody_roundTrip (b : Option JsBody)
    (h : viewsCoverBuffer b) :
    observeRelayBody (deserializeBody (serializeBody b)) = observeJsBody b := by
  match b with
  | Option.none => rfl
  | some (.str s) =>
      by_cases hs : s.isEmpty
      · have hs' : s = "" := (String.isEmpty_iff s).mp hs
        subst hs'
        rfl
      · simp only [serializeBody, jsBodyTruthy, hs, Bool.not_false]
        rfl
  | some (.urlSearchParams enc) => rfl
  | some (.formData entries) =>
      show BodyObs.formObs (((entries.map serializeFormEntry).map
          deserializeFormEntry).map observeRelayFormEntry) =
        BodyObs.formObs (entries.map observeJsFormEntry)
      simp only [List.map_map]
      exact congrArg BodyObs.formObs
        (List.map_congr_left (fun e _ => formEntry_roundTrip e))
  | some (.blob bytes mime) => rfl
  | some (.arrayBuffer bytes) => rfl
  | some (.typedView backing off len) =>
      obtain ⟨h0, hl⟩ := h
      subst h0 hl
      show BodyObs.raw backing = BodyObs.raw ((backing.drop 0).take backing.length)
      simp

/-! Association-list and contains/filter helper lemmas. -/

theorem contains_filter_ne_self (l : List String) (k : String) :
    (l.filter (fun x => x != k)).contains k = false := by
  simp [List.mem_filter]

theorem contains_filter_ne (l : List String) (k k' : String) (h : k' ≠ k) :
    (l.filter (fun x => x != k)).contains k' = l.contains k' := by
  simp [List.mem_filter, h]

theorem filter_ne_of_not_contains (l : List String) (k : String)
    (h : l.contains k = false) : l.filter (fun x => x != k) = l := by
  simp only [List.contains, List.elem_eq_mem, decide_eq_false_iff_not] at h
  refine List.filter_eq_self.mpr (fun a ha => ?_)
  simp only [bne_iff_ne, ne_eq, decide_eq_true_eq]
  intro hak
  exact h (hak ▸ ha)

theorem lookup_append_self {β : Type} (l : List (String × β)) (k : String)
    (v : β) (h : l.lookup k = Option.none) :
    (l ++ [(k, v)]).lookup k = some v := by
  rw [List.lookup_append, h]
  simp

theorem lookup_append_sing_ne {β : Type} (l : List (String × β))
    (k k' : String) (v : β) (h : k' ≠ k) :
    (l ++ [(k, v)]).lookup k' = l.lookup k' := by
  rw [List.lookup_append]
  cases hl : l.lookup k' with
  | none => simp [List.lookup, beq_false_of_ne h]
  | some w => simp

theorem stepBridge_fetchResponse (st : ContentState) (d : FetchResponseData) :
    stepBridge st (toResponseMsg d) =
      if st.fetchPending.contains d.requestId then
        { st with
            fetchPending := st.fetchPending.filter (fun x => x != d.requestId),
            fetchCompletions := st.fetchCompletions ++
              [(d.requestId, fetchOutcome d.error d.payload)] }
      else
        { st with
            fetchPending := st.fetchPending.filter (fun x => x != d.requestId) }
    := by
  simp only [stepBridge, handleBridgeMessage, toResponseMsg, bne_self_eq_false,
    Bool.false_eq_true, if_false]
  cases h : st.fetchPending.contains d.requestId <;> simp [h]

theorem stepBridge_fetch_miss (st : ContentState) (d : FetchResponseData)
    (h : st.fetchPending.contains d.requestId = false) :
    stepBridge st (toResponseMsg d) = st := by
  rw [stepBridge_fetchResponse, if_neg (by simpa using h),
    filter_ne_of_not_contains _ _ h]

theorem stepBridge_completions_mono (st : ContentState) (m : BusMessage)
    (k : String) (v : FetchCompletion)
    (h : st.fetchCompletions.lookup k = some v) :
    (stepBridge st m).fetchCompletions.lookup k = some v := by
  unfold stepBridge handleBridgeMessage
  by_cases hs : m.scope != BRIDGE_SCOPE
  · simp [hs, h]
  · simp only [hs, if_false, Bool.not_eq_true] at *
    match hb : m.body with
    | .fetchResponse rid err payload =>
        simp only [hs]
        cases hp : st.fetchPending.contains rid <;>
          simp [hp, List.lookup_append, h]
    | .wsEvent p => simp [hs, h]
    | .other => simp [hs, h]

theorem runBridgeMessages_completions_mono (st : ContentState)
    (msgs : List BusMessage) (k : String) (v : FetchCompletion)
    (h : st.fetchCompletions.lookup k = some v) :
    (runBridgeMessages st msgs).fetchCompletions.lookup k = some v := by
  induction msgs generalizing st with
  | nil => exact h
  | cons m rest ih =>
      exact ih _ (stepBridge_completions_mono st m k v h)

/-- Claim C2: for every set of concurrently outstanding proxied fetches with
pairwise-distinct correlation ids, and for every arrival order of their
fetch-response messages (reverse order included), each pending caller's
promise is completed with exactly the response payload carrying its own
request id, never one belonging to a different id. -/
theorem fetch_correlation (st : ContentState) (msgs : List FetchResponseData)
    (hnodup : (msgs.map FetchResponseData.requestId).Nodup)
    (hpend : ∀ d ∈ msgs, st.fetchPending.contains d.requestId = true)
    (hfresh : ∀ d ∈ msgs, st.fetchCompletions.lookup d.requestId = Option.none) :
    ∀ d ∈ msgs,
      (runBridgeMessages st (msgs.map toResponseMsg)).fetchCompletions.lookup
        d.requestId = some (fetchOutcome d.error d.payload) := by
  induction msgs generalizing st with
  | nil => intro d hd; cases hd
  | cons m rest ih =>
      intro d hd
      have hstep := stepBridge_fetchResponse st m
      rw [if_pos (hpend m (by simp))] at hstep
      set st₁ := stepBridge st (toResponseMsg m) with hst₁
      have hmap : (m :: rest).map toResponseMsg =
          toResponseMsg m :: rest.map toResponseMsg := rfl
      have hnodup' : (rest.map FetchResponseData.requestId).Nodup :=
        (List.nodup_cons.mp hnodup).2
      have hmnotin : m.requestId ∉ rest.map FetchResponseData.requestId :=
        (List.nodup_cons.mp hnodup).1
      have hrun : runBridgeMessages st ((m :: rest).map toResponseMsg) =
          runBridgeMessages st₁ (rest.map toResponseMsg) := rfl
      rcases List.mem_cons.mp hd with hEqm | hd
      · -- d = m: its completion is appended by the first step and preserved
        subst hEqm
        have hlk : st₁.fetchCompletions.lookup d.requestId =
            some (fetchOutcome d.error d.payload) := by
          rw [hstep]
          exact lookup_append_self _ _ _ (hfresh d (by simp))
        rw [hrun]
        exact runBridgeMessages_completions_mono _ _ _ _ hlk
      · -- d ∈ rest: apply the induction hypothesis at st₁
        have hne : d.requestId ≠ m.requestId := by
          intro hEq
          exact hmnotin (hEq ▸ List.mem_map_of_mem FetchResponseData.requestId hd)
        have hpend' : ∀ d' ∈ rest, st₁.fetchPending.contains d'.requestId = true := by
          intro d' hd'
          have hne' : d'.requestId ≠ m.requestId := by
            intro hEq
            exact hmnotin (hEq ▸ List.mem_map_of_mem FetchResponseData.requestId hd')
          rw [hstep]
          show (st.fetchPending.filter (fun x => x != m.requestId)).contains
            d'.requestId = true
          rw [contains_filter_ne _ _ _ hne']
          exact hpend d' (by simp [hd'])
        have hfresh' : ∀ d' ∈ rest,
            st₁.fetchCompletions.lookup d'.requestId = Option.none := by
          intro d' hd'
          have hne' : d'.requestId ≠ m.requestId := by
            intro hEq
            exact hmnotin (hEq ▸ List.mem_map_of_mem FetchResponseData.requestId hd')
          rw [hstep]
          show (st.fetchCompletions ++
            [(m.requestId, fetchOutcome m.error m.payload)]).lookup d'.requestId
            = Option.none
          rw [lookup_append_sing_ne _ _ _ _ hne']
          exact hfresh d' (by simp [hd'])
        rw [hrun]
        exact ih st₁ hnodup' hpend' hfresh' d hd

/-- Claim C3: at most one fetch-response completes a caller's promise:
processing a fetch-response removes its id from the pending-fetch table, and
processing the same (duplicate) response again, its id now absent, has no
observable effect at all — the state is unchanged, so there is no second
resolution and no change to other pending entries, and the handler is a
total function, so no exception. -/
theorem fetch_at_most_once (st : ContentState) (d : FetchResponseData) :
    ((stepBridge st (toResponseMsg d)).fetchPending.contains d.requestId = false)
    ∧ stepBridge (stepBridge st (toResponseMsg d)) (toResponseMsg d) =
        stepBridge st (toResponseMsg d) := by
  have habsent :
      (stepBridge st (toResponseMsg d)).fetchPending.contains d.requestId
        = false := by
    rw [stepBridge_fetchResponse]
    cases h : st.fetchPending.contains d.requestId <;>
      simp [h, contains_filter_ne_self]
  exact ⟨habsent, stepBridge_fetch_miss _ _ habsent⟩

/-! Keyed-table lemmas: deletion and in-place replacement. -/

theorem lookup_filter_key_self {β : Type} (l : List (String × β)) (k : String) :
    (l.filter (fun e => e.1 != k)).lookup k = Option.none := by
  rw [List.lookup_eq_none_iff]
  intro p hp
  have h2 := (List.mem_filter.mp hp).2
  simp only [bne_iff_ne, ne_eq, decide_eq_true_eq] at h2 ⊢
  exact Ne.symm h2

theorem lookup_filter_key_ne {β : Type} (l : List (String × β))
    (k k' : String) (h : k' ≠ k) :
    (l.filter (fun e => e.1 != k)).lookup k' = l.lookup k' := by
  induction l with
  | nil => rfl
  | cons e rest ih =>
      rcases e with ⟨a, b⟩
      by_cases ha : a = k
      · subst ha
        simp [List.filter_cons, List.lookup_cons, beq_false_of_ne h, ih]
      · by_cases hk' : k' = a
        · subst hk'
          simp [List.filter_cons, bne_iff_ne, ha, List.lookup_cons]
        · simp [List.filter_cons, bne_iff_ne, ha, List.lookup_cons,
            beq_false_of_ne hk', ih]

theorem mapReplace_cons (k : String) (v : BridgeWebSocket) (a : String)
    (b : BridgeWebSocket) (rest : List (String × BridgeWebSocket)) :
    mapReplace k v ((a, b) :: rest) =
      (if a == k then (a, v) else (a, b)) :: mapReplace k v rest := rfl

theorem mapReplace_keys (k : String) (v : BridgeWebSocket)
    (l : List (String × BridgeWebSocket)) :
    (mapReplace k v l).map Prod.fst = l.map Prod.fst := by
  induction l with
  | nil => rfl
  | cons e rest ih =>
      rcases e with ⟨a, b⟩
      rw [mapReplace_cons]
      by_cases ha : a == k <;> simp [ha, ih]

theorem lookup_mapReplace_self (l : List (String × BridgeWebSocket))
    (k : String) (v w : BridgeWebSocket) (h : l.lookup k = some w) :
    (mapReplace k v l).lookup k = some v := by
  induction l with
  | nil => simp at h
  | cons e rest ih =>
      rcases e with ⟨a, b⟩
      rw [mapReplace_cons]
      by_cases ha : k = a
      · subst ha
        simp
      · simp only [List.lookup_cons, beq_false_of_ne ha] at h
        rw [if_neg (by simpa using Ne.symm ha)]
        simp only [List.lookup_cons, beq_false_of_ne ha]
        exact ih h

theorem lookup_mapReplace_ne (l : List (String × BridgeWebSocket))
    (k k' : String) (v : BridgeWebSocket) (h : k' ≠ k) :
    (mapReplace k v l).lookup k' = l.lookup k' := by
  induction l with
  | nil => rfl
  | cons e rest ih =>
      rcases e with ⟨a, b⟩
      rw [mapReplace_cons]
      by_cases ha : a = k
      · subst ha
        rw [if_pos (by simp)]
        simp only [List.lookup_cons, beq_false_of_ne h]
        exact ih
      · rw [if_neg (by simpa using ha)]
        by_cases hk' : k' = a
        · subst hk'
          simp
        · simp only [List.lookup_cons, beq_false_of_ne hk']
          exact ih

theorem mapReplace_absent (l : List (String × BridgeWebSocket))
    (k : String) (v : BridgeWebSocket) (h : ∀ e ∈ l, e.1 ≠ k) :
    mapReplace k v l = l := by
  induction l with
  | nil => rfl
  | cons e rest ih =>
      rcases e with ⟨a, b⟩
      rw [mapReplace_cons]
      rw [if_neg (by simpa using h (a, b) (by simp))]
      rw [ih (fun e' he' => h e' (by simp [he']))]

theorem mapReplace_eq_self (l : List (String × BridgeWebSocket))
    (k : String) (v : BridgeWebSocket) (hnd : nodupKeys l)
    (h : l.lookup k = some v) : mapReplace k v l = l := by
  induction l with
  | nil => rfl
  | cons e rest ih =>
      rcases e with ⟨a, b⟩
      have hnd' := hnd
      rw [nodupKeys, List.map_cons, List.nodup_cons] at hnd'
      rw [mapReplace_cons]
      by_cases ha : k = a
      · subst ha
        have hvb : b = v := by simpa using h
        subst hvb
        rw [if_pos (by simp)]
        rw [mapReplace_absent rest k b
          (fun e' he' => by
            intro hek
            have hmem : e'.1 ∈ rest.map Prod.fst :=
              List.mem_map_of_mem Prod.fst he'
            rw [hek] at hmem
            exact hnd'.1 hmem)]
      · simp only [List.lookup_cons, beq_false_of_ne ha] at h
        rw [if_neg (by simpa using Ne.symm ha)]
        rw [ih hnd'.2 h]

theorem handleWsEventMsg_found (sockets : List (String × BridgeWebSocket))
    (p : WsEventPayload) (ws : BridgeWebSocket)
    (hlk : sockets.lookup p.wsId = some ws) :
    handleWsEventMsg sockets (some p) =
      (if (ws.handleRemoteEvent p).removeFromTable then
          sockets.filter (fun e => e.1 != (ws.handleRemoteEvent p).socket.wsId)
        else mapReplace p.wsId (ws.handleRemoteEvent p).socket sockets,
        (ws.handleRemoteEvent p).dispatched) := by
  unfold handleWsEventMsg
  simp only [hlk]

theorem handleRemoteEvent_keeps (ws : BridgeWebSocket) (p : WsEventPayload)
    (h1 : p.event ≠ "open") (h4 : p.event ≠ "close") :
    (ws.handleRemoteEvent p).socket = ws ∧
      (ws.handleRemoteEvent p).removeFromTable = false := by
  unfold BridgeWebSocket.handleRemoteEvent
  rw [if_neg h1]
  by_cases h2 : p.event = "message"
  · simp [h2]
  · rw [if_neg h2]
    by_cases h3 : p.event = "error"
    · simp [h3]
    · rw [if_neg h3, if_neg h4]
      exact ⟨rfl, rfl⟩

theorem handleRemoteEvent_open (ws : BridgeWebSocket) (p : WsEventPayload)
    (h : p.event = "open") :
    ws.handleRemoteEvent p =
      { socket := { ws with readyState := BridgeWebSocket.OPEN },
        removeFromTable := false, dispatched := some .openEvt } := by
  unfold BridgeWebSocket.handleRemoteEvent
  rw [if_pos h]

theorem handleRemoteEvent_close (ws : BridgeWebSocket) (p : WsEventPayload)
    (h : p.event = "close") :
    ws.handleRemoteEvent p =
      { socket := { ws with readyState := BridgeWebSocket.CLOSED },
        removeFromTable := true,
        dispatched :=
          some (.closeEvt p.code p.reason (p.wasClean.getD false)) } := by
  unfold BridgeWebSocket.handleRemoteEvent
  rw [h]
  rw [if_neg (by decide), if_neg (by decide), if_neg (by decide),
    if_pos rfl]

/-- Claim C10: processing a remote ws-event of kind `error`, `message` or
any unrecognized kind leaves the socket's ready-state and the page-side
socket table unchanged; only an `open` event sets the ready-state to open
(keeping the table's keys), and only a `close` event sets the ready-state to
closed and removes the socket's id from the table, leaving other entries
untouched. -/
theorem wsEvent_frame_effects (sockets : List (String × BridgeWebSocket))
    (p : WsEventPayload) (ws : BridgeWebSocket)
    (hnd : nodupKeys sockets)
    (hlk : sockets.lookup p.wsId = some ws)
    (hwf : ws.wsId = p.wsId) :
    (p.event ≠ "open" → p.event ≠ "close" →
        (handleWsEventMsg sockets (some p)).1 = sockets ∧
        (ws.handleRemoteEvent p).socket = ws)
    ∧ (p.event = "open" →
        (ws.handleRemoteEvent p).socket =
          { ws with readyState := BridgeWebSocket.OPEN }
        ∧ (handleWsEventMsg sockets (some p)).1.lookup p.wsId =
            some { ws with readyState := BridgeWebSocket.OPEN }
        ∧ (handleWsEventMsg sockets (some p)).1.map Prod.fst =
            sockets.map Prod.fst)
    ∧ (p.event = "close" →
        (ws.handleRemoteEvent p).socket.readyState = BridgeWebSocket.CLOSED
        ∧ (handleWsEventMsg sockets (some p)).1.lookup p.wsId = Option.none
        ∧ ∀ k, k ≠ p.wsId →
            (handleWsEventMsg sockets (some p)).1.lookup k =
              sockets.lookup k) := by
  refine ⟨?_, ?_, ?_⟩
  · intro h1 h4
    obtain ⟨hsock, hrem⟩ := handleRemoteEvent_keeps ws p h1 h4
    refine ⟨?_, hsock⟩
    rw [handleWsEventMsg_found sockets p ws hlk]
    simp only [hrem, Bool.false_eq_true, if_false, hsock]
    exact mapReplace_eq_self sockets p.wsId ws hnd hlk
  · intro ho
    have hre := handleRemoteEvent_open ws p ho
    refine ⟨by rw [hre], ?_, ?_⟩
    · rw [handleWsEventMsg_found sockets p ws hlk, hre]
      simp only [Bool.false_eq_true, if_false]
      exact lookup_mapReplace_self sockets p.wsId _ ws hlk
    · rw [handleWsEventMsg_found sockets p ws hlk, hre]
      simp only [Bool.false_eq_true, if_false]
      exact mapReplace_keys p.wsId _ sockets
  · intro hc
    have hre := handleRemoteEvent_close ws p hc
    refine ⟨by rw [hre], ?_, ?_⟩
    · rw [handleWsEventMsg_found sockets p ws hlk, hre]
      simp only [if_true]
      show (sockets.filter (fun e => e.1 != ws.wsId)).lookup p.wsId =
        Option.none
      rw [hwf]
      exact lookup_filter_key_self sockets p.wsId
    · intro k hk
      rw [handleWsEventMsg_found sockets p ws hlk, hre]
      simp only [if_true]
      show (sockets.filter (fun e => e.1 != ws.wsId)).lookup k =
        sockets.lookup k
      rw [hwf]
      exact lookup_filter_key_ne sockets p.wsId k hk

/-- Claim C8: after the relay handles a ws-close message the target socket
id is absent from its socket table, regardless of whether the underlying
close succeeded, threw (in which case an error event is emitted with the
thrown or fallback message), or the socket was missing; entries under other
ids are untouched. -/
theorem handleWsCloseMsg_spec (sockets : List (String × RelaySocket))
    (wsId : String) :
    ((handleWsCloseMsg sockets wsId).1.lookup wsId = Option.none)
    ∧ (∀ k, k ≠ wsId →
        (handleWsCloseMsg sockets wsId).1.lookup k = sockets.lookup k)
    ∧ (∀ w m, sockets.lookup wsId = some w → w.closeError = some m →
        (handleWsCloseMsg sockets wsId).2 =
          [.errorEvt wsId (if m.isEmpty then "Close WebSocket failed" else m)])
    ∧ (sockets.lookup wsId = Option.none →
        (handleWsCloseMsg sockets wsId).2 = []) := by
  refine ⟨?_, ?_, ?_, ?_⟩
  · show (cleanupSocket sockets wsId).lookup wsId = Option.none
    unfold cleanupSocket
    cases h : sockets.lookup wsId with
    | none => exact h
    | some w => exact lookup_filter_key_self sockets wsId
  · intro k hk
    show (cleanupSocket sockets wsId).lookup k = sockets.lookup k
    unfold cleanupSocket
    cases h : sockets.lookup wsId with
    | none => rfl
    | some w => exact lookup_filter_key_ne sockets wsId k hk
  · intro w m hw hm
    show (handleWsCloseMsg sockets wsId).2 = _
    unfold handleWsCloseMsg
    simp only [hw, hm]
  · intro h
    unfold handleWsCloseMsg
    simp only [h]

theorem forEachClose_ids (sockets : List (String × RelaySocket)) :
    (forEachClose sockets).map Prod.fst = sockets.map Prod.fst := by
  induction sockets with
  | nil => rfl
  | cons e rest ih =>
      rcases e with ⟨id, ws⟩
      cases h : ws.closeError <;> simp [forEachClose, h, ih]

/-- Claim C9: when the long-lived port channel disconnects, the relay
attempts to close every socket still tracked in that channel's table (a
throwing close is caught and does not stop the iteration, as the recursion
in `forEachClose` shows) and the table is empty afterwards. -/
theorem onPortDisconnect_spec (sockets : List (String × RelaySocket)) :
    (onPortDisconnect sockets).2 = []
    ∧ (onPortDisconnect sockets).1.map Prod.fst = sockets.map Prod.fst :=
  ⟨rfl, forEachClose_ids sockets⟩

theorem shouldProxyUrl_no_config (matchTab : String → String → Bool)
    (origin : String) (cache : CachedConfigValue) (target : UrlParts)
    (h : readCachedConfig cache = Option.none) :
    shouldProxyUrl matchTab origin cache target = false := by
  unfold shouldProxyUrl
  simp only [h, isEnabledForCurrentPage, Bool.not_false, if_true]

theorem shouldProxyUrl_config (matchTab : String → String → Bool)
    (origin : String) (c : ExtensionConfig) (target : UrlParts) :
    shouldProxyUrl matchTab origin (.parsedConfig c) target =
      if c.domainRules.isEmpty then false
      else if matchTab c.domainRules origin then
        (match getTargetHost (some c) with
          | Option.none => false
          | some h => target.host == h)
      else false := by
  unfold shouldProxyUrl readCachedConfig
  by_cases hdr : c.domainRules.isEmpty
  · simp [isEnabledForCurrentPage, hdr]
  · by_cases hmt : matchTab c.domainRules origin
    · simp only [isEnabledForCurrentPage, hdr, if_false, hmt, Bool.not_true,
        Bool.false_eq_true, if_false, eq_self_iff_true, if_true]
    · simp [isEnabledForCurrentPage, hdr, hmt]

/-- Claim C4: `shouldProxyUrl` returns `true` exactly when a well-formed
cached configuration exists (the cache parses to an object), the page origin
matches the configured domain rules under the external `matchCurrentTab`
evaluator (a parameter here, since `src/utils` is outside the given
sources), and the target URL's host equals the host derived from the
configured service address; with an absent or malformed cache it returns
`false`, and being a total function it never throws. -/
theorem shouldProxyUrl_spec (matchTab : String → String → Bool)
    (origin : String) (cache : CachedConfigValue) (target : UrlParts) :
    (shouldProxyUrl matchTab origin cache target = true ↔
      ∃ c, readCachedConfig cache = some c ∧ c.domainRules.isEmpty = false ∧
        matchTab c.domainRules origin = true ∧
        ∃ h, getTargetHost (some c) = some h ∧ target.host = h)
    ∧ (readCachedConfig cache = Option.none →
        shouldProxyUrl matchTab origin cache target = false) := by
  constructor
  · cases cache with
    | parsedConfig c =>
        rw [shouldProxyUrl_config]
        constructor
        · intro h
          by_cases hdr : c.domainRules.isEmpty
          · rw [if_pos hdr] at h; cases h
          · rw [if_neg hdr] at h
            by_cases hmt : matchTab c.domainRules origin
            · rw [if_pos hmt] at h
              cases hht : getTargetHost (some c) with
              | none => rw [hht] at h; cases h
              | some host =>
                  rw [hht] at h
                  exact ⟨c, rfl, by simpa using hdr, hmt, host, hht,
                    by simpa using h⟩
            · rw [if_neg hmt] at h; cases h
        · rintro ⟨c', hc', hdr, hmt, host, hht, hhost⟩
          have hcc : c = c' := by
            simpa [readCachedConfig] using hc'
          subst hcc
          rw [if_neg (by simp [hdr]), if_pos hmt, hht]
          simp [hhost]
    | absent =>
        rw [shouldProxyUrl_no_config matchTab origin CachedConfigValue.absent
          target rfl]
        simp only [Bool.false_eq_true, false_iff]
        rintro ⟨c, hc, -⟩
        simp [readCachedConfig] at hc
    | unparsable =>
        rw [shouldProxyUrl_no_config matchTab origin CachedConfigValue.unparsable
          target rfl]
        simp only [Bool.false_eq_true, false_iff]
        rintro ⟨c, hc, -⟩
        simp [readCachedConfig] at hc
    | parsedNull =>
        rw [shouldProxyUrl_no_config matchTab origin CachedConfigValue.parsedNull
          target rfl]
        simp only [Bool.false_eq_true, false_iff]
        rintro ⟨c, hc, -⟩
        simp [readCachedConfig] at hc
    | parsedNonObject =>
        rw [shouldProxyUrl_no_config matchTab origin CachedConfigValue.parsedNonObject
          target rfl]
        simp only [Bool.false_eq_true, false_iff]
        rintro ⟨c, hc, -⟩
        simp [readCachedConfig] at hc
  · exact shouldProxyUrl_no_config matchTab origin cache target

/-- Claim C5: `BridgeWebSocket.send` raises its synchronous error exactly
when the socket's ready-state is not open; when the ready-state is open it
does not throw and posts the data unchanged as a ws-send bridge message. -/
theorem send_spec (ws : BridgeWebSocket) (d : WsData) :
    (BridgeWebSocket.send ws d = .error "WebSocket is not open" ↔
      ws.readyState ≠ BridgeWebSocket.OPEN)
    ∧ (ws.readyState = BridgeWebSocket.OPEN →
        BridgeWebSocket.send ws d =
          .ok { scope := BRIDGE_SCOPE, type := WS_SEND, wsId := ws.wsId,
                data := d }) := by
  unfold BridgeWebSocket.send
  by_cases h : ws.readyState = BridgeWebSocket.OPEN
  · rw [if_neg (by simpa using h)]
    exact ⟨by simp [h], fun _ => rfl⟩
  · rw [if_pos (by simpa using h)]
    exact ⟨by simp [h], fun hc => absurd hc h⟩

/-- Claim C6 (amended): `BridgeWebSocket.close` never throws; it is a no-op
when the ready-state is already closed; otherwise it sets the ready-state to
closing and posts a ws-close message; the resulting ready-state is closed
only if it already was (close never sets closed locally); and a second close
leaves the socket state unchanged — though, as the counterexample shows, it
posts a duplicate ws-close message, so it is not a complete no-op. -/
theorem close_spec (ws : BridgeWebSocket) (code : Option Nat)
    (reason : Option String) :
    (ws.readyState = BridgeWebSocket.CLOSED →
      BridgeWebSocket.close ws code reason = (ws, Option.none))
    ∧ (ws.readyState ≠ BridgeWebSocket.CLOSED →
        BridgeWebSocket.close ws code reason =
          ({ ws with readyState := BridgeWebSocket.CLOSING },
            some { scope := BRIDGE_SCOPE, type := WS_CLOSE, wsId := ws.wsId,
                   code := code, reason := reason }))
    ∧ ((BridgeWebSocket.close ws code reason).1.readyState =
          BridgeWebSocket.CLOSED ↔ ws.readyState = BridgeWebSocket.CLOSED)
    ∧ (∀ code2 reason2,
        (BridgeWebSocket.close (BridgeWebSocket.close ws code reason).1
            code2 reason2).1 =
          (BridgeWebSocket.close ws code reason).1) := by
  unfold BridgeWebSocket.close
  by_cases h : ws.readyState = BridgeWebSocket.CLOSED
  · rw [if_pos h]
    refine ⟨fun _ => rfl, fun hc => absurd h hc, by simp [h], ?_⟩
    intro code2 reason2
    simp [h]
  · rw [if_neg h]
    refine ⟨fun hc => absurd hc h, fun _ => rfl, ?_, ?_⟩
    · simp only []
      constructor
      · intro hcl
        exact absurd hcl (by simp [BridgeWebSocket.CLOSING, BridgeWebSocket.CLOSED])
      · intro hcl
        exact absurd hcl h
    · intro code2 reason2
      simp [BridgeWebSocket.CLOSING, BridgeWebSocket.CLOSED]

/-- Claim C7: for every fetch-request message the relay handles, it sends
back exactly one reply: the success record with status, status text, headers
and body-as-text when the fetch pipeline succeeds, and the failure record
with the error message when any fallible step (the fetch itself or reading
the response body) rejects — every failure is caught and converted into a
reply, for any behavior of the underlying `fetch`. -/
theorem fetchRequest_always_replies
    (fetchImpl : String → RelayRequestInit → Except String RelayHttpResponse)
    (msg : RuntimeMsg) (h : msg.type = BRIDGE_FETCH) :
    ∃ r, onFetchRequestMessage fetchImpl msg = some r ∧
      ((∃ res body, fetchImpl msg.url (buildReqInit msg.init) = .ok res ∧
          res.textResult = .ok body ∧
          r = .success res.status res.statusText res.headers body)
        ∨ (∃ e, r = .failure e ∧
            (fetchImpl msg.url (buildReqInit msg.init) = .error e ∨
              ∃ res, fetchImpl msg.url (buildReqInit msg.init) = .ok res ∧
                res.textResult = .error e))) := by
  unfold onFetchRequestMessage handleProxiedFetch
  rw [h]
  simp only [bne_self_eq_false, Bool.false_eq_true, if_false]
  cases hf : fetchImpl msg.url (buildReqInit msg.init) with
  | error e =>
      exact ⟨.failure e, rfl, Or.inr ⟨e, rfl, Or.inl rfl⟩⟩
  | ok res =>
      cases ht : res.textResult with
      | error e =>
          refine ⟨.failure e, ?_, Or.inr ⟨e, rfl, Or.inr ⟨res, rfl, ht⟩⟩⟩
          simp only [ht]
      | ok body =>
          refine ⟨.success res.status res.statusText res.headers body, ?_,
            Or.inl ⟨res, body, rfl, ht, rfl⟩⟩
          simp only [ht]

/-- Claim C1 (failing input): for a typed-array view covering only a
sub-range of its backing buffer, `serializeBody` captures the whole backing
buffer (`new Uint8Array(body.buffer)`), so the deserialized body carries the
4 backing bytes instead of the view's 2 bytes: the round-trip is not
byte-identical to the original body, contradicting the claimed exactness. -/
theorem serializeBody_typedView_subrange_bug :
    observeJsBody (some (.typedView [10, 11, 12, 13] 1 2)) = .raw [11, 12]
    ∧ serializeBody (some (.typedView [10, 11, 12, 13] 1 2)) =
        .arrayBuffer [10, 11, 12, 13]
    ∧ observeRelayBody (deserializeBody (serializeBody
        (some (.typedView [10, 11, 12, 13] 1 2)))) = .raw [10, 11, 12, 13]
    ∧ observeRelayBody (deserializeBody (serializeBody
        (some (.typedView [10, 11, 12, 13] 1 2)))) ≠
        observeJsBody (some (.typedView [10, 11, 12, 13] 1 2)) := by
  refine ⟨rfl, rfl, rfl, ?_⟩
  decide

/-- Claim C6 counterexample: after a first close (socket now in the closing
state), a second close is not a no-op — it posts a second ws-close bridge
message, because only the already-closed state short-circuits. -/
theorem close_twice_posts_second_message :
    BridgeWebSocket.close
        (BridgeWebSocket.close ⟨"ws-1", "wss://svc.local", "blob", 0⟩
          Option.none Option.none).1 Option.none Option.none ≠
      ((BridgeWebSocket.close ⟨"ws-1", "wss://svc.local", "blob", 0⟩
          Option.none Option.none).1, Option.none) := by
  decide

theorem fetch_correlation_witness :
    (runBridgeMessages ⟨["a", "b"], [], []⟩
        ([⟨"b", Option.none, some ⟨some true, 200, "OK", [], "B", Option.none⟩⟩,
          ⟨"a", Option.none,
            some ⟨some true, 201, "Created", [], "A", Option.none⟩⟩].map
          toResponseMsg)).fetchCompletions.lookup "a"
      = some (fetchOutcome Option.none
          (some ⟨some true, 201, "Created", [], "A", Option.none⟩)) :=
  fetch_correlation ⟨["a", "b"], [], []⟩
    [⟨"b", Option.none, some ⟨some true, 200, "OK", [], "B", Option.none⟩⟩,
     ⟨"a", Option.none, some ⟨some true, 201, "Created", [], "A", Option.none⟩⟩]
    (by decide) (by decide) (by decide)
    ⟨"a", Option.none, some ⟨some true, 201, "Created", [], "A", Option.none⟩⟩
    (by decide)

theorem shouldProxyUrl_spec_witness :
    shouldProxyUrl (fun _ _ => true) "https://page.example"
      (.parsedConfig ⟨"page", true, "svc.local"⟩) ⟨"svc.local", "/api"⟩
      = true :=
  (shouldProxyUrl_spec (fun _ _ => true) "https://page.example"
      (.parsedConfig ⟨"page", true, "svc.local"⟩) ⟨"svc.local", "/api"⟩).1.mpr
    ⟨⟨"page", true, "svc.local"⟩, rfl, rfl, rfl, "svc.local", by decide, rfl⟩

theorem send_spec_witness :
    (BridgeWebSocket.send ⟨"w1", "wss://svc.local", "blob", 1⟩ (.str "hi") =
        .error "WebSocket is not open" ↔ (1 : Nat) ≠ BridgeWebSocket.OPEN)
    ∧ ((1 : Nat) = BridgeWebSocket.OPEN →
        BridgeWebSocket.send ⟨"w1", "wss://svc.local", "blob", 1⟩ (.str "hi") =
          .ok ⟨BRIDGE_SCOPE, WS_SEND, "w1", .str "hi"⟩) :=
  send_spec ⟨"w1", "wss://svc.local", "blob", 1⟩ (.str "hi")

theorem close_spec_witness :
    BridgeWebSocket.close ⟨"w2", "wss://svc.local", "blob", 0⟩ Option.none
        Option.none =
      (⟨"w2", "wss://svc.local", "blob", 2⟩,
        some ⟨BRIDGE_SCOPE, WS_CLOSE, "w2", Option.none, Option.none⟩) :=
  (close_spec ⟨"w2", "wss://svc.local", "blob", 0⟩ Option.none
    Option.none).2.1 (by decide)

theorem fetchRequest_always_replies_witness :
    ∃ r, onFetchRequestMessage (fun _ _ => .error "network down")
        ⟨BRIDGE_FETCH, "https://svc.local/api", Option.none⟩ = some r ∧
      ((∃ res body,
          (fun (_ : String) (_ : RelayRequestInit) =>
            (.error "network down" : Except String RelayHttpResponse))
            "https://svc.local/api" (buildReqInit Option.none) = .ok res ∧
          res.textResult = .ok body ∧
          r = .success res.status res.statusText res.headers body)
        ∨ (∃ e, r = .failure e ∧
            ((fun (_ : String) (_ : RelayRequestInit) =>
              (.error "network down" : Except String RelayHttpResponse))
              "https://svc.local/api" (buildReqInit Option.none) = .error e ∨
              ∃ res,
                (fun (_ : String) (_ : RelayRequestInit) =>
                  (.error "network down" : Except String RelayHttpResponse))
                  "https://svc.local/api" (buildReqInit Option.none) = .ok res ∧
                res.textResult = .error e))) :=
  fetchRequest_always_replies (fun _ _ => .error "network down")
    ⟨BRIDGE_FETCH, "https://svc.local/api", Option.none⟩ rfl

theorem handleWsCloseMsg_spec_witness :
    (handleWsCloseMsg [("s1", ⟨some "boom"⟩)] "s1").1.lookup "s1" = Option.none
    ∧ (handleWsCloseMsg [("s1", ⟨some "boom"⟩)] "s1").2 =
        [.errorEvt "s1"
          (if "boom".isEmpty then "Close WebSocket failed" else "boom")] :=
  ⟨(handleWsCloseMsg_spec [("s1", ⟨some "boom"⟩)] "s1").1,
    (handleWsCloseMsg_spec [("s1", ⟨some "boom"⟩)] "s1").2.2.1
      ⟨some "boom"⟩ "boom" rfl rfl⟩

theorem wsEvent_frame_effects_witness :
    ((⟨"s1", "wss://svc.local", "blob", 0⟩ : BridgeWebSocket).handleRemoteEvent
        ⟨"s1", "open", Option.none, Option.none, Option.none, Option.none,
          Option.none⟩).socket = ⟨"s1", "wss://svc.local", "blob", 1⟩
    ∧ (handleWsEventMsg [("s1", ⟨"s1", "wss://svc.local", "blob", 0⟩)]
        (some ⟨"s1", "open", Option.none, Option.none, Option.none,
          Option.none, Option.none⟩)).1.lookup "s1" =
        some ⟨"s1", "wss://svc.local", "blob", 1⟩
    ∧ (handleWsEventMsg [("s1", ⟨"s1", "wss://svc.local", "blob", 0⟩)]
        (some ⟨"s1", "open", Option.none, Option.none, Option.none,
          Option.none, Option.none⟩)).1.map Prod.fst =
        [("s1", (⟨"s1", "wss://svc.local", "blob", 0⟩ : BridgeWebSocket))].map
          Prod.fst :=
  (wsEvent_frame_effects [("s1", ⟨"s1", "wss://svc.local", "blob", 0⟩)]
      ⟨"s1", "open", Option.none, Option.none, Option.none, Option.none,
        Option.none⟩
      ⟨"s1", "wss://svc.local", "blob", 0⟩
      (by unfold nodupKeys; decide) rfl rfl).2.1 rfl

end PageSpy
